import Mathlib

/-!
Verification of the salt-podman-formula repository's compose execution and
state modules (`_modules/compose.py`, `_states/compose.py`).

The Python modules are shallowly embedded: Python strings become `List Char`
(`PyStr`) or `String`, Python dicts become association lists, functions that
can raise `SaltInvocationError` / `CommandExecutionError` return `Except`,
and calls into external programs (podman, systemctl, the filesystem, the
salt dispatch table `__salt__`) are modelled as oracles collected in
environment records.  Control flow, including operator-precedence details
and unbound-local slips of the source, is translated verbatim.
-/

set_option maxRecDepth 4000

namespace SaltPodman

/-- Python strings are sequences of characters. -/
abbrev PyStr := List Char

/-- Turn a literal into a `PyStr`. -/
def pys (s : String) : PyStr := s.toList

/-- VALID_UNIT_TYPES from `_modules/compose.py` lines 60-70. -/
def VALID_UNIT_TYPES : List PyStr :=
  [pys "service", pys "socket", pys "device", pys "mount", pys "automount",
   pys "swap", pys "target", pys "path", pys "timer"]

/-- The `_canonical_unit_name` helper (`_modules/compose.py` lines 426-436):
a name that already ends with one of the valid unit-type suffixes is kept,
otherwise ".service" is appended. -/
def canonicalUnitName (name : PyStr) : PyStr :=
  if VALID_UNIT_TYPES.any (fun suffix => suffix.isSuffixOf name) then name
  else name ++ pys ".service"

/-- Arguments handed to `_parse_args`: either a 2-tuple `(k, v)` or a plain
atom (`_modules/compose.py` line 189 distinguishes tuples from the rest). -/
inductive CliArg
  | pair (k v : String)
  | flag (a : String)
deriving DecidableEq, Repr

/-- Formatting of a single argument by `_parse_args`: the template is
"--{}={}" when `include_equal` is set and "--{} {}" otherwise, and plain
atoms become "--{}" (`_modules/compose.py` lines 184-189). -/
def formatCliArg (includeEqual : Bool) : CliArg → String
  | .pair k v => if includeEqual then "--" ++ k ++ "=" ++ v else "--" ++ k ++ " " ++ v
  | .flag a => "--" ++ a

/-- The `_parse_args` helper (`_modules/compose.py` lines 184-189): a list
comprehension formatting every argument. -/
def parseCliArgs (args : List CliArg) (includeEqual : Bool) : List String :=
  args.map (formatCliArg includeEqual)

/-- Command-line assembly performed by `_run` (`_modules/compose.py` lines
144-158): append ("format", "json") to cmd_args when json is set, parse both
argument lists with include_equal=True, build
[bin_path] + args + [command] + cmd_args and append ["--"] + params when
params is not None. -/
def runCmdLine (binPath command : String) (args cmdArgs : List CliArg)
    (params : Option (List String)) (json : Bool) : List String :=
  let cmdArgs := if json then cmdArgs ++ [CliArg.pair "format" "json"] else cmdArgs
  let args := parseCliArgs args true
  let cmdArgs := parseCliArgs cmdArgs true
  let cmd := [binPath] ++ args ++ [command] ++ cmdArgs
  match params with
  | some ps => cmd ++ ["--"] ++ ps
  | none => cmd

/-- Exceptions of the Python code: `SaltInvocationError` and
`CommandExecutionError` (both caught by the state module's handlers), and
`other` for the remaining Python exceptions (TypeError, ValueError,
IndexError, UnboundLocalError, ...) which no handler in this repository
catches. -/
inductive PyErr
  | invocation (msg : String)
  | execution (msg : String)
  | other (msg : String)
deriving DecidableEq, Repr

/-- Whether the state module's `except (CommandExecutionError,
SaltInvocationError)` handlers catch this exception. -/
def PyErr.catchable : PyErr → Bool
  | .invocation _ => true
  | .execution _ => true
  | .other _ => false

/-- Message of the exception (Python `str(e)`). -/
def PyErr.msg : PyErr → String
  | .invocation m => m
  | .execution m => m
  | .other m => m

/-- Python dict lookup (`d.get(k)` / `d[k]`) on an association list. -/
def dictGet {α : Type} (d : List (String × α)) (k : String) : Option α :=
  (d.find? (fun p => p.1 = k)).map (fun p => p.2)

/-- Python dict assignment `d[k] = v`: overwrite in place or append. -/
def dictSet {α : Type} (d : List (String × α)) (k : String) (v : α) :
    List (String × α) :=
  if d.any (fun p => p.1 = k) then
    d.map (fun p => if p.1 = k then (k, v) else p)
  else d ++ [(k, v)]

/-! ### Unit-file parsing (`inspect_unit`, `_modules/compose.py` 1348-1489)

The three `re.findall` calls of `inspect_unit` use MULTILINE patterns of the
shape `^PRE[a-z\/]+MARKER(CAPTURE)`.  They are modelled on the list of lines
of the file (splitting the contents on newline characters models the `^`
anchor of `re.MULTILINE`), with the backtracking order of the greedy
`[a-z\/]+` quantifier made explicit. -/

/-- Characters matched by the `[a-z\/]` class. -/
def isClassChar (c : Char) : Bool := ('a' ≤ c && c ≤ 'z') || c = '/'

/-- Characters matched by `\w` (the unit files are ASCII). -/
def isWordChar (c : Char) : Bool := c.isAlphanum || c = '_'

/-- Candidate remainders after matching `PRE[a-z\/]+MARKER` at the start of
one line, in the order the backtracking engine tries them: the `[a-z\/]+`
run is maximal first and is shortened on failure, and it must be
nonempty. -/
def lineCandidates (pre marker : PyStr) (line : PyStr) : List PyStr :=
  if pre.isPrefixOf line then
    let rest := line.drop pre.length
    let maxRun := (rest.takeWhile isClassChar).length
    (List.range (maxRun + 1)).reverse.filterMap (fun i =>
      if 1 ≤ i ∧ marker.isPrefixOf (rest.drop i) then
        some (rest.drop (i + marker.length))
      else none)
  else []

/-- The negative lookahead `(?!\w+=|[\[#;])` of the continuation-line
pattern: a line is rejected when its maximal leading `\w` run is nonempty
and followed by '=', or when it starts with '[', '#' or ';'. -/
def blockedContLine (l : PyStr) : Bool :=
  let run := (l.takeWhile isWordChar).length
  (decide (1 ≤ run) && l.get? run == some '=') ||
    l.head? == some '[' || l.head? == some '#' || l.head? == some ';'

/-- Continuation blocks `(?:\n+(?!\w+=|[\[#;])[^\n]+)+` after a matched
line: greedily consume runs of newlines (blank lines) followed by a
nonempty unblocked line.  Returns the captured text and the number of
blocks. -/
def contBlocksGo : List PyStr → Nat → PyStr × Nat
  | [], _ => ([], 0)
  | l :: rest, pending =>
    if l = [] then contBlocksGo rest (pending + 1)
    else if blockedContLine l then ([], 0)
    else
      let (tail, n) := contBlocksGo rest 0
      (List.replicate (pending + 1) '\n' ++ l ++ tail, n + 1)

/-- Continuation capture of the lines following a matched line, starting
with one pending newline (the one separating them from the matched
line). -/
def contBlocks (lines : List PyStr) : PyStr × Nat :=
  contBlocksGo lines 0

/-- First capture of `^PRE[a-z\/]+MARKER([^\n]*(?:\n+(?!\w+=|[\[#;])[^\n]+)+|[^\n]+)`
over the lines of the file: branch one (rest of line plus at least one
continuation block) is tried before branch two (nonempty rest of line). -/
def execCapture (pre marker : PyStr) : List PyStr → Option PyStr
  | [] => none
  | l :: rest =>
    let cands := lineCandidates pre marker l
    let (cont, n) := contBlocks rest
    if 1 ≤ n then
      match cands.head? with
      | some r => some (r ++ cont)
      | none => execCapture pre marker rest
    else
      match cands.find? (fun r => !r.isEmpty) with
      | some r => some r
      | none => execCapture pre marker rest

/-- First capture of `^ExecStartPre=[a-z\/]+podman pod create(.*)`: the
capture is the (possibly empty) rest of the first matching line. -/
def podCapture (lines : List PyStr) : Option PyStr :=
  lines.findSome? (fun l =>
    (lineCandidates (pys "ExecStartPre=") (pys "podman pod create") l).head?)

/-! ### `parse_arguments` (nested in `inspect_unit`, lines 1374-1405) -/

/-- A parsed option value before dict insertion: Python `True` or a
string. -/
inductive OptItem
  | vtrue
  | vstr (s : String)
deriving DecidableEq, Repr

/-- A value in the `options` dict: repeated options become lists. -/
inductive OptVal
  | single (v : OptItem)
  | listOf (vs : List OptItem)
deriving DecidableEq, Repr

/-- Result of `parse_arguments`: `{"options": {...}, "params": [...]}`. -/
structure ParsedArgs where
  options : List (String × OptVal)
  params : List String
deriving DecidableEq, Repr

/-- Insertion of an option occurrence: a repeated key turns its value into
a list and appends (lines 1398-1403). -/
def addOpt (p : ParsedArgs) (k : String) (v : OptItem) : ParsedArgs :=
  match dictGet p.options k with
  | some (.single w) => { p with options := dictSet p.options k (.listOf [w, v]) }
  | some (.listOf ws) => { p with options := dictSet p.options k (.listOf (ws ++ [v])) }
  | none => { p with options := dictSet p.options k (.single v) }

/-- Splitting a character sequence on a separator (the semantics of
Python `str.split(sep)` for a one-character separator). -/
def splitOnChar (sep : Char) : List Char → List (List Char)
  | [] => [[]]
  | c :: rest =>
    match splitOnChar sep rest with
    | [] => [[]]
    | l :: ls => if c = sep then [] :: l :: ls else (c :: l) :: ls

/-- Python `tok.startswith("-")`. -/
def startsWithDash (t : String) : Bool := t.toList.head? = some '-'

/-- Split at the first occurrence of a character (Python
`s.split(c, 1)` when it yields two parts). -/
def splitFirst (s : String) (c : Char) : Option (String × String) :=
  let l := s.toList
  let pre := l.takeWhile (fun x => x ≠ c)
  match l.dropWhile (fun x => x ≠ c) with
  | [] => none
  | _ :: tail => some (String.mk pre, String.mk tail)

/-- The `"=" in arg` branch of the option parser: split `k=v`, otherwise
the value stays `True`. -/
def eqSplit (arg : String) : String × OptItem :=
  match splitFirst arg '=' with
  | some (a, v) => (a, .vstr v)
  | none => (arg, .vtrue)

/-- The while loop of `parse_arguments` (lines 1382-1404): tokens not
starting with '-' (or after the first such token) are params; an option
token takes the following token as value when that token does not start
with '-', otherwise an inline `k=v` is split, otherwise the value is
`True`. -/
def parseArgsLoop : List String → Bool → ParsedArgs → ParsedArgs
  | [], _, p => p
  | [tok], fin, p =>
    if !startsWithDash tok || fin then { p with params := p.params ++ [tok] }
    else
      let arg := String.mk (tok.toList.dropWhile (fun c => c = '-'))
      let (a, v) := eqSplit arg
      addOpt p a v
  | tok :: next :: rest2, fin, p =>
    if !startsWithDash tok || fin then
      parseArgsLoop (next :: rest2) true { p with params := p.params ++ [tok] }
    else
      let arg := String.mk (tok.toList.dropWhile (fun c => c = '-'))
      if !startsWithDash next then
        parseArgsLoop rest2 fin (addOpt p arg (.vstr next))
      else
        let (a, v) := eqSplit arg
        parseArgsLoop (next :: rest2) fin (addOpt p a v)

/-- `parse_arguments` on the token list produced by `shlex.split`: newline
tokens are filtered out first (line 1378). -/
def parseArguments (tokens : List String) : ParsedArgs :=
  parseArgsLoop (tokens.filter (fun t => t ≠ "\n")) false ⟨[], []⟩

/-! ### Execution-module data model

External state (filesystem, podman, systemctl, user database, the YAML
loader and the sha256 digest of the normalized definitions) is collected in
a `ModuleEnv` of oracles; one environment describes one composition. -/

/-- A container as reported by `podman ps --format json`: only the fields
this repository reads (`Id`, `Labels`). -/
structure Container where
  id : String
  labels : List (String × String)
deriving DecidableEq, Repr

/-- One service of the parsed compose file, with the fields `_list_units`
reads: `container_name` and `deploy.replicas` (default 1). -/
structure ServiceConf where
  containerName : Option String := none
  replicas : Nat := 1
deriving DecidableEq, Repr

/-- The parsed compose file: its `services` mapping. -/
structure ComposeDefs where
  services : List (String × ServiceConf)
deriving DecidableEq, Repr

/-- Oracles describing the external world for the execution module. -/
structure ModuleEnv where
  /-- `_user_info(user, "home")`: home directory lookup, raising
  `SaltInvocationError` for unknown accounts. -/
  homeOf : String → Except PyErr String
  /-- File contents by path; `none` models a file that does not exist. -/
  readFile : String → Option String
  /-- `Path(dir).exists()` for directories. -/
  dirExists : String → Bool
  /-- External `shlex.split`. -/
  shlexSplit : String → List String
  /-- `ps(name=n)` (used by `inspect_unit` for non-ephemeral units). -/
  psByName : String → Except PyErr (List Container)
  /-- `ps(systemd_unit=u, user=user)` (used by `inspect_unit`). -/
  psByUnit : String → Except PyErr (List Container)
  /-- `ps(project_name, user=user)` (used by `has_changes`). -/
  psProject : String → Except PyErr (List Container)
  /-- `ps(composition, status=[created,paused,stopped,exited,unknown])`
  (used by `remove`). -/
  psStopped : Except PyErr (List Container)
  /-- `pps(composition, user=user)` (used by `remove`). -/
  ppsRes : Except PyErr (List Container)
  /-- `systemctl_is_running(unit, user)`: whether `systemctl is-active`
  succeeded; errors model the lingering check of `_systemctl` raising. -/
  systemctlActive : String → Except PyErr Bool
  /-- The sha256 digest of the JSON dump of the normalized definitions
  computed by `_get_compose_hash` (hashing and normalization are external:
  `salt.utils.hashutils`, `podman_compose`). -/
  composeHash : String
  /-- `find_compose_file(composition)` resolution for this composition:
  `ok none` models the not-found result (`False` when
  `raise_not_found_error` is unset). -/
  composeFileRes : Except PyErr (Option String)
  /-- `_project_to_project_name`. -/
  projectNameOf : String → Except PyErr String
  /-- `_find_user(composition)`: `ok none` models the root owner. -/
  findUserRes : Except PyErr (Option String)
  /-- The YAML parse of the compose file; `none` models contents that are
  not a dict with a "services" key. -/
  defsOpt : Option ComposeDefs
  /-- Module config `compose.default_container_prefix`. -/
  defaultCntPre : String := ""
  /-- Module config `compose.default_pod_prefix`. -/
  defaultPodPre : String := ""
  /-- Result of running `podman-compose down` (in `remove`). -/
  downRes : Except PyErr Unit := .ok ()
  /-- Result of `__salt__["file.remove"](path)`. -/
  fileRemoveRes : String → Except PyErr Unit := fun _ => .ok ()

/-- Mutating external actions performed by `remove`, for the atomicity
statement. -/
inductive Effect
  | composeDown (withVolumes : Bool)
  | fileRemove (path : String)
deriving DecidableEq, Repr

/-- Resolution `passed or default` with Python truthiness (None and ""
are falsy). -/
def resolveOr (passed : Option String) (dflt : String) : String :=
  match passed with
  | some s => if s = "" then dflt else s
  | none => dflt

/-- Resolution `user = user or _find_user(composition)`. -/
def resolveUser (env : ModuleEnv) (user : Option String) :
    Except PyErr (Option String) :=
  match user with
  | some u => if u = "" then env.findUserRes else .ok (some u)
  | none => env.findUserRes

/-- `find_compose_file` with `raise_not_found_error=True` (the module
functions' own calls). -/
def findComposeFileStrict (env : ModuleEnv) : Except PyErr String :=
  match env.composeFileRes with
  | .ok (some p) => .ok p
  | .ok none =>
    .error (.invocation "Could not find a composition file for the project.")
  | .error e => .error e

/-- `find_compose_file` with `raise_not_found_error=False` (the state
module's calls): a miss returns falsy `False` instead of raising. -/
def findComposeFileLax (env : ModuleEnv) : Except PyErr (Option String) :=
  env.composeFileRes

/-- Resolution `project_name = project_name or _project_to_project_name(composition)`. -/
def resolveProjectName (env : ModuleEnv) (composition : String) :
    Option String → Except PyErr String
  | some s => if s = "" then env.projectNameOf composition else .ok s
  | none => env.projectNameOf composition

/-- `canonical_unit_name` on Lean strings. -/
def canonicalUnitNameStr (s : String) : String :=
  String.mk (canonicalUnitName s.toList)

/-- `service_dir(user)` (`_modules/compose.py` lines 402-423): the root
service directory or `~/.config/systemd/user`. -/
def serviceDirM (env : ModuleEnv) : Option String → Except PyErr String
  | none => .ok "/etc/systemd/system"
  | some u => do
    let home ← env.homeOf u
    return home ++ "/.config/systemd/user"

/-- `_is_unit_installed` (lines 1165-1175): whether the canonical unit file
exists in the service directory, alongside its path (`none` when the
service directory itself is missing). -/
def isUnitInstalledM (env : ModuleEnv) (service : String)
    (user : Option String) : Except PyErr (Bool × Option String) := do
  let sdir ← serviceDirM env user
  if !env.dirExists sdir then
    return (false, none)
  else
    let path := sdir ++ "/" ++ canonicalUnitNameStr service
    return ((env.readFile path).isSome, some path)

/-! ### `inspect_unit` (`_modules/compose.py` lines 1348-1489) -/

/-- The podman-ps-like map built from a parsed `podman run` line.  The
computed entries are embedded; the remaining keys of the dict literal
(lines 1443-1473) are the fixed constants `AutoRemove: True`,
`Command: []`, `CreatedAt: ""`, `IsInfra: False`, `PodName: ""`, empty
lists, and `None` values (`Id` among them), which are kept where this
repository later reads them. -/
structure PsUnit where
  autoRemove : Bool := true
  id : Option String := none
  image : String
  labels : List (String × String)
  mounts : List String := []
  networks : List OptItem := []
deriving DecidableEq, Repr

/-- The dynamically-typed result of `inspect_unit`: the `podman ps` output
for non-ephemeral units, the parsed option map for pod units, or the
ps-like map parsed from a `podman run` line. -/
inductive InspectRet
  | psList (cs : List Container)
  | podOpts (p : ParsedArgs)
  | psLike (u : PsUnit)
deriving DecidableEq, Repr

/-- The `Labels` comprehension of lines 1455-1459 on a raw option value:
absent gives `{}`; a single string iterates over its characters (each
must be '=' to split into two parts, otherwise the unpacking raises
ValueError); a flag value `True` is not iterable; a list of strings splits
each entry at its first '='. -/
def labelCharsLoop : List Char → List (String × String) →
    Except PyErr (List (String × String))
  | [], acc => .ok acc
  | c :: rest, acc =>
    if c = '=' then labelCharsLoop rest (dictSet acc "" "")
    else .error (.other "ValueError: not enough values to unpack (expected 2, got 1)")

/-- Label splitting over a list value of the `label` option. -/
def labelItemsLoop : List OptItem → List (String × String) →
    Except PyErr (List (String × String))
  | [], acc => .ok acc
  | .vtrue :: _, _ =>
    .error (.other "AttributeError: 'bool' object has no attribute 'split'")
  | .vstr s :: rest, acc =>
    match splitFirst s '=' with
    | some (k, v) => labelItemsLoop rest (dictSet acc k v)
    | none =>
      .error (.other "ValueError: not enough values to unpack (expected 2, got 1)")

/-- Dispatch of the `Labels` comprehension on the shape of
`args["options"].get("label", [])`. -/
def labelsOfOpt : Option OptVal → Except PyErr (List (String × String))
  | none => .ok []
  | some (.single .vtrue) => .error (.other "TypeError: 'bool' object is not iterable")
  | some (.single (.vstr s)) => labelCharsLoop s.toList []
  | some (.listOf items) => labelItemsLoop items []

/-- The `Mounts` construction of lines 1477-1481: wrap a single value,
then take the part after the first ':' of each volume
(`vol.split(":", 1)[1]`). -/
def mountsOfOpt : Option OptVal → Except PyErr (List String)
  | none => .ok []
  | some v =>
    let vols := match v with | .single x => [x] | .listOf xs => xs
    vols.mapM (fun x =>
      match x with
      | .vtrue =>
        .error (.other "AttributeError: 'bool' object has no attribute 'split'")
      | .vstr s =>
        match splitFirst s ':' with
        | some (_, rhs) => .ok rhs
        | none => .error (.other "IndexError: list index out of range"))

/-- The `Networks` construction of lines 1483-1487: wrap a single value. -/
def networksOfOpt : Option OptVal → List OptItem
  | none => []
  | some (.single x) => [x]
  | some (.listOf xs) => xs

/-- The line list a MULTILINE regex scan sees. -/
def linesOf (contents : String) : List PyStr :=
  splitOnChar '\n' contents.toList

/-- `inspect_unit` (lines 1348-1489): canonicalize the unit name, require
the unit file, then try the `podman start`, `podman pod create` and
`podman run` patterns in turn; a `podman run` match is parsed into a
ps-like map whose Labels finally get `PODMAN_SYSTEMD_UNIT` set to the
canonical unit name. -/
def inspectUnitM (env : ModuleEnv) (unit : String) (user : Option String)
    (podmanPsIfRunning : Bool) : Except PyErr InspectRet := do
  let unit := canonicalUnitNameStr unit
  let sdir ← serviceDirM env user
  let unitFile := sdir ++ "/" ++ unit
  match env.readFile unitFile with
  | none => throw (.invocation ("File '" ++ unitFile ++ "' does not exist."))
  | some contents =>
    let lines := linesOf contents
    match execCapture (pys "ExecStart=") (pys "podman start") lines with
    | some cap =>
      let args := parseArguments (env.shlexSplit (String.mk cap))
      match args.params.head? with
      | some p0 => do
        let cs ← env.psByName p0
        return .psList cs
      | none => throw (.other "IndexError: list index out of range")
    | none =>
      match podCapture lines with
      | some cap => return .podOpts (parseArguments (env.shlexSplit (String.mk cap)))
      | none =>
        match execCapture (pys "ExecStart=") (pys "podman run") lines with
        | none =>
          throw (.execution "Failed parsing unit \x7bunit\x7d. Was it created by podman?")
        | some cap => do
          let psOut ← if podmanPsIfRunning then env.psByUnit unit else pure []
          if podmanPsIfRunning ∧ ¬ psOut.isEmpty then
            return .psList psOut
          else
            let args := parseArguments (env.shlexSplit (String.mk cap))
            match args.params.head? with
            | none => throw (.other "IndexError: list index out of range")
            | some img => do
              let baseLabels ← labelsOfOpt (dictGet args.options "label")
              let labels := dictSet baseLabels "PODMAN_SYSTEMD_UNIT" unit
              let mounts ← mountsOfOpt (dictGet args.options "v")
              let networks := networksOfOpt (dictGet args.options "net")
              return .psLike
                { image := img, labels := labels, mounts := mounts,
                  networks := networks }

/-! ### Expected and installed units (`_list_units`, `list_missing_units`,
`list_installed_units`, `_get_compose_hash`, `has_changes`) -/

/-- The `{"containers": {...}, "pods": {...}}` maps returned by
`list_missing_units` and `list_installed_units`: unit name to unit file
path (the path is `None` when the service directory is missing). -/
structure UnitsMap where
  containers : List (String × Option String)
  pods : List (String × Option String)
deriving DecidableEq, Repr

/-- `_list_units` (lines 1118-1162): expected pod and container unit names
for a composition.  The passed separator is overwritten in both branches of
lines 1136-1139: "-" when a prefix is set and no separator was passed,
otherwise "". -/
def listUnitsM (env : ModuleEnv) (projectName cntPre podPre sep user :
    Option String) : Except PyErr (String × List String) := do
  let composition ← findComposeFileStrict env
  let projName ← resolveProjectName env composition projectName
  let _user ← resolveUser env user
  let cntPre := resolveOr cntPre env.defaultCntPre
  let podPre := resolveOr podPre env.defaultPodPre
  let separator :=
    if (cntPre ≠ "" ∨ podPre ≠ "") ∧ sep = none then "-" else ""
  match env.defsOpt with
  | none => throw (.other "KeyError: services")
  | some defs =>
    let serviceNames := defs.services.flatMap (fun sc =>
      (List.range sc.2.replicas).map (fun k =>
        let num := k + 1
        let nameDefault := projName ++ "_" ++ sc.1 ++ "_" ++ toString num
        let nm := if num = 1 then sc.2.containerName.getD nameDefault
          else nameDefault
        cntPre ++ separator ++ nm))
    let pod := podPre ++ separator ++ "pod_" ++ projName
    return (pod, serviceNames)

/-- `list_missing_units` (lines 1178-1262): expected units whose files are
absent.  The pod is only reported when `should_have_pod` is truthy (its
default `None` is falsy). -/
def listMissingUnitsM (env : ModuleEnv)
    (projectName cntPre podPre : Option String) (shouldHavePod : Option Bool)
    (sep user : Option String) : Except PyErr UnitsMap := do
  let _composition ← findComposeFileStrict env
  let user ← resolveUser env user
  let cntPre := some (resolveOr cntPre env.defaultCntPre)
  let podPre := some (resolveOr podPre env.defaultPodPre)
  let (podName, serviceNames) ← listUnitsM env projectName cntPre podPre sep user
  let containers ← serviceNames.foldlM (fun acc service => do
    let r ← isUnitInstalledM env service user
    if !r.1 then return dictSet acc service r.2 else return acc) []
  let r ← isUnitInstalledM env podName user
  let pods := if !r.1 ∧ shouldHavePod = some true then [(podName, r.2)] else []
  return { containers := containers, pods := pods }

/-- The `status_only=True` variant of `list_missing_units`
(`bool(containers or pods)`, line 1260). -/
def listMissingUnitsStatusM (env : ModuleEnv)
    (projectName cntPre podPre : Option String) (shouldHavePod : Option Bool)
    (sep user : Option String) : Except PyErr Bool := do
  let m ← listMissingUnitsM env projectName cntPre podPre shouldHavePod sep user
  return !m.containers.isEmpty || !m.pods.isEmpty

/-- `list_installed_units` (lines 1265-1345): expected units whose files
are present (the pod unit is always reported when installed). -/
def listInstalledUnitsM (env : ModuleEnv)
    (projectName cntPre podPre : Option String)
    (sep user : Option String) : Except PyErr UnitsMap := do
  let _composition ← findComposeFileStrict env
  let user ← resolveUser env user
  let cntPre := some (resolveOr cntPre env.defaultCntPre)
  let podPre := some (resolveOr podPre env.defaultPodPre)
  let (podName, serviceNames) ← listUnitsM env projectName cntPre podPre sep user
  let containers ← serviceNames.foldlM (fun acc service => do
    let r ← isUnitInstalledM env service user
    if r.1 then return dictSet acc service r.2 else return acc) []
  let r ← isUnitInstalledM env podName user
  let pods := if r.1 then [(podName, r.2)] else []
  return { containers := containers, pods := pods }

/-- The `status_only=True` variant of `list_installed_units` (line 1343). -/
def listInstalledUnitsStatusM (env : ModuleEnv)
    (projectName cntPre podPre : Option String)
    (sep user : Option String) : Except PyErr Bool := do
  let m ← listInstalledUnitsM env projectName cntPre podPre sep user
  return !m.containers.isEmpty || !m.pods.isEmpty

/-- `_get_compose_hash` (lines 833-882): the YAML load must be a dict with
a "services" key, then the digest of the normalized definitions is
computed (normalization and hashing are external; `composeHash` is their
result) and returned together with the definitions. -/
def getComposeHashM (env : ModuleEnv) (file : String) :
    Except PyErr (String × ComposeDefs) :=
  match env.defsOpt with
  | none => .error (.execution ("Compose file " ++ file ++ " is invalid."))
  | some d => .ok (env.composeHash, d)

/-- A container as consumed by the `has_changes` loop: its `Id` (absent
for maps parsed from unit files) and its `Labels`. -/
structure CntView where
  idOpt : Option String
  labels : List (String × String)
deriving DecidableEq, Repr

/-- Reading `cnt["Labels"]` / `cnt["Id"]` off an `inspect_unit` result in
the `has_changes` fallback: pod option maps have no `Labels` key and
`podman ps` lists are not string-indexable. -/
def viewOfInspect : InspectRet → Except PyErr CntView
  | .psLike u => .ok ⟨u.id, u.labels⟩
  | .podOpts _ => .error (.other "KeyError: 'Labels'")
  | .psList _ =>
    .error (.other "TypeError: list indices must be integers or slices, not str")

/-- The result of `has_changes`: a bare boolean or the
`{"changed": [...], "missing": {...}}` map (entries of `changed` may be
`None` when a container has neither the unit label nor an id). -/
inductive HasChangesRet
  | bool (b : Bool)
  | changesMap (changed : List (Option String)) (missing : UnitsMap)
deriving DecidableEq, Repr

/-- The error raised when a container carries no (or an empty) config-hash
label: its message slices `cnt["Id"]`, which is `None` for parsed unit
files. -/
def noHashErr (v : CntView) : PyErr :=
  match v.idOpt with
  | some i =>
    .execution ("Could not find configuration hash of container " ++
      i.take 12 ++ ". Was it created by podman-compose?")
  | none => .other "TypeError: 'NoneType' object is not subscriptable"

/-- The membership test of lines 1013-1015:
`cnt["Labels"].get("com.docker.compose.service") in definitions["services"]`
(a missing label gives `None`, which is never a key). -/
def svcInDefs (v : CntView) (defs : ComposeDefs) : Bool :=
  match dictGet v.labels "com.docker.compose.service" with
  | some s => defs.services.any (fun p => p.1 = s)
  | none => false

/-- The per-container body of the `has_changes` loop (lines 1002-1019):
require a truthy config-hash label, and record the unit (or the id) of a
container whose hash differs, unless `skip_removed` is set and its service
is gone from the definitions. -/
def hasChangesLoop (newHash : String) (skipRemoved : Bool)
    (defs : ComposeDefs) (acc : List (Option String)) (v : CntView) :
    Except PyErr (List (Option String)) := do
  match dictGet v.labels "io.podman.compose.config-hash" with
  | none => throw (noHashErr v)
  | some h =>
    if h = "" then throw (noHashErr v)
    else if h ≠ newHash then
      if !skipRemoved || svcInDefs v defs then
        return acc ++ [(dictGet v.labels "PODMAN_SYSTEMD_UNIT").or v.idOpt]
      else return acc
    else return acc

/-- The container collection of `has_changes` (lines 967-989): the
project's `podman ps` output, or, when empty, the ps-like maps parsed from
the installed container unit files. -/
def hasChangesContainersM (env : ModuleEnv) (projName : String)
    (cntPre podPre : String) (sep user : Option String) :
    Except PyErr (List CntView) := do
  let psCnts ← env.psProject projName
  let containers := psCnts.map (fun c => CntView.mk (some c.id) c.labels)
  if containers.isEmpty then do
    let installed ← listInstalledUnitsM env (some projName) (some cntPre)
      (some podPre) sep user
    installed.containers.foldlM (fun acc sc => do
      let r ← inspectUnitM env sc.1 user false
      let v ← viewOfInspect r
      return acc ++ [v]) ([] : List CntView)
  else pure containers

/-- `has_changes` (lines 885-1027).  Note line 964 parses as
`(status_only and missing["pods"]) or missing["containers"]`, so missing
container units short-circuit to `True` even when `status_only` is
False. -/
def hasChangesM (env : ModuleEnv) (statusOnly skipRemoved : Bool)
    (projectName cntPre podPre sep user : Option String) :
    Except PyErr HasChangesRet := do
  let composition ← findComposeFileStrict env
  let projName ← resolveProjectName env composition projectName
  let user ← resolveUser env user
  let cntPre := resolveOr cntPre env.defaultCntPre
  let podPre := resolveOr podPre env.defaultPodPre
  let missing ← listMissingUnitsM env (some projName) (some cntPre)
    (some podPre) none sep user
  if (statusOnly && !missing.pods.isEmpty) || !missing.containers.isEmpty then
    return .bool true
  let containers ← hasChangesContainersM env projName cntPre podPre sep user
  if containers.isEmpty then
    if statusOnly then
      return .bool (!missing.pods.isEmpty || !missing.containers.isEmpty)
    else
      return .changesMap [] missing
  else
    let hd ← getComposeHashM env composition
    let changed ← containers.foldlM (hasChangesLoop hd.1 skipRemoved hd.2) []
    if statusOnly then
      return .bool (!changed.isEmpty || !missing.pods.isEmpty ||
        !missing.containers.isEmpty)
    else
      return .changesMap changed missing

/-! ### `is_running` (lines 3023-3106) and `remove` (lines 1997-2094) -/

/-- Python's rendering of the user in f-strings (`None` for root). -/
def userRepr : Option String → String
  | some u => u
  | none => "None"

/-- The inactive-service scan of `is_running` (lines 3074-3102): installed
pod and container units that `systemctl is-active` does not report
running; raises when no unit of the project is installed. -/
def isRunningInactiveM (env : ModuleEnv)
    (projectName cntPre podPre sep user : Option String) :
    Except PyErr (List String) := do
  let composition ← findComposeFileStrict env
  let projName ← resolveProjectName env composition projectName
  let user ← resolveUser env user
  let cntPre := resolveOr cntPre env.defaultCntPre
  let podPre := resolveOr podPre env.defaultPodPre
  let units ← listInstalledUnitsM env (some projName) (some cntPre)
    (some podPre) sep user
  let runningServices := units.pods.map (fun p => p.1) ++
    units.containers.map (fun p => p.1)
  if runningServices.isEmpty then
    throw (.execution ("Could not find any units belonging to project " ++
      projName ++ " for user " ++ userRepr user ++ "."))
  else
    runningServices.foldlM (fun acc s => do
      let b ← env.systemctlActive s
      if !b then return acc ++ [s] else return acc) []

/-- `is_running` with `show_missing=False`: `not bool(inactive)`. -/
def isRunningM (env : ModuleEnv)
    (projectName cntPre podPre sep user : Option String) :
    Except PyErr Bool := do
  let inactive ← isRunningInactiveM env projectName cntPre podPre sep user
  return inactive.isEmpty

/-- The unit-file deletion loop at the end of `remove` (lines 2091-2092),
returning the accumulated effect trace. -/
def removeFilesLoop (env : ModuleEnv) (paths : List (Option String))
    (trace : List Effect) : Except PyErr Bool × List Effect :=
  match paths with
  | [] => (.ok true, trace)
  | none :: _ =>
    (.error (.other "TypeError: file.remove called with None"), trace)
  | some p :: rest =>
    match env.fileRemoveRes p with
    | .error e => (.error e, trace ++ [.fileRemove p])
    | .ok () => removeFilesLoop env rest (trace ++ [.fileRemove p])

/-- The tail of `remove` after the running check (lines 2067-2094): list
leftover containers and pods, run `podman-compose down` when any exist or
volumes are requested, then delete the installed unit files. -/
def removeTail (env : ModuleEnv) (volumes : Bool)
    (projName : String) (cntPre podPre sep user : Option String)
    (trace : List Effect) : Except PyErr Bool × List Effect :=
  match env.psStopped with
  | .error e => (.error e, trace)
  | .ok cs1 =>
    match env.ppsRes with
    | .error e => (.error e, trace)
    | .ok cs2 =>
      let cnts := cs1 ++ cs2
      let afterDown : Except PyErr Unit × List Effect :=
        if !cnts.isEmpty || volumes then
          match env.downRes with
          | .error e => (.error e, trace ++ [.composeDown volumes])
          | .ok () => (.ok (), trace ++ [.composeDown volumes])
        else (.ok (), trace)
      match afterDown with
      | (.error e, tr) => (.error e, tr)
      | (.ok (), tr) =>
        match listInstalledUnitsM env (some projName) cntPre podPre sep user with
        | .error e => (.error e, tr)
        | .ok units =>
          removeFilesLoop env
            (units.containers.map (fun p => p.2) ++
              units.pods.map (fun p => p.2)) tr

/-- `remove` (lines 1997-2094): requires the services to be dead; raises
`CommandExecutionError` when `is_running` reports them running, before any
mutating action. -/
def removeM (env : ModuleEnv) (volumes : Bool)
    (projectName cntPre podPre sep user : Option String) :
    Except PyErr Bool × List Effect :=
  match findComposeFileStrict env with
  | .error e => (.error e, [])
  | .ok composition =>
    match resolveProjectName env composition projectName with
    | .error e => (.error e, [])
    | .ok projName =>
      match resolveUser env user with
      | .error e => (.error e, [])
      | .ok user =>
        match isRunningM env (some projName) cntPre podPre sep user with
        | .error e => (.error e, [])
        | .ok true =>
          (.error (.execution ("Cannot remove composition " ++ composition ++
            " because the service(s) are still running.")), [])
        | .ok false =>
          removeTail env volumes projName cntPre podPre sep user []

/-! ### State module (`_states/compose.py`)

The state functions only reach the execution module through the host's
dispatch table `__salt__`; its entries are modelled as oracles in a
`StateEnv`, one field per call site.  A state function's body threads the
`ret` dict (mutated in place in Python) together with a trace of the
mutating module calls it performs; the `except (CommandExecutionError,
SaltInvocationError)` wrapper of every public state function is the
`runStateFn` runner. -/

/-- A value stored in a state return's `changes` dict. -/
inductive ChangeVal
  | str (s : String)
  | bool (b : Bool)
deriving DecidableEq, Repr

/-- The `{"name": ..., "changes": {}, "result": True, "comment": ""}` dict
every state function initializes and returns; `result` is `None` in test
mode. -/
structure StateRet where
  name : String
  changes : List (String × ChangeVal)
  result : Option Bool
  comment : String
deriving DecidableEq, Repr

/-- The initial `ret` of every state function. -/
def initRet (name : String) : StateRet :=
  { name := name, changes := [], result := some true, comment := "" }

/-- Mutating module calls a state function can perform. -/
inductive SAction
  | installAct
  | installUnitsAct
  | stopAct
  | removeAct
deriving DecidableEq, Repr

/-- State threaded through a state function: the `ret` dict under
construction and the trace of mutating actions performed so far. -/
structure StPack where
  ret : StateRet
  acts : List SAction
deriving DecidableEq, Repr

/-- A state-function body: from the current pack to a normal return value
or a propagating exception, together with the final pack. -/
abbrev StComp := StPack → Except PyErr StateRet × StPack

/-- Dispatch-table oracles and options for the state functions, one field
per call site (`Pre`/`Post` distinguish repeated consultations of the
changing world). -/
structure StateEnv where
  /-- `__opts__["test"]`. -/
  test : Bool
  /-- `compose.find_compose_file(name, user=user, raise_not_found_error=False)`. -/
  findComposeFile : Except PyErr (Option String)
  /-- First `compose.list_installed_units(status_only=True)` call. -/
  listInstalledPre : Except PyErr Bool
  /-- Second `compose.list_installed_units(status_only=True)` call (after
  `compose.remove` in `removed`). -/
  listInstalledPost : Except PyErr Bool
  /-- `compose.has_changes(status_only=True, skip_removed=not remove_orphans)`. -/
  hasChangesRes : Except PyErr Bool
  /-- `compose.install_units(..., generate_only=True)`: generated unit
  definitions by unit name. -/
  installUnitsGen : Except PyErr (List (String × String))
  /-- `compose.service_dir(user)`. -/
  serviceDirRes : Except PyErr String
  /-- `file.file_exists(path)`. -/
  fileExists : String → Bool
  /-- `file.read(path)`. -/
  fileRead : String → Except PyErr String
  /-- `compose.install_units(...)` applying the generated units. -/
  installUnitsApply : Except PyErr Bool
  /-- `compose.install(...)`. -/
  installRes : Except PyErr Bool
  /-- `compose.list_missing_units(status_only=True, should_have_pod=create_pod)`
  after installation. -/
  listMissingPost : Except PyErr Bool
  /-- `compose.remove(...)`. -/
  removeRes : Except PyErr Bool
  /-- `compose.is_running(...)`. -/
  isRunningPre : Except PyErr Bool
  /-- `compose.stop(...)`. -/
  stopRes : Except PyErr Bool
  /-- `compose.is_dead(...)` at the k-th poll of the retry loop. -/
  isDeadAt : Nat → Except PyErr Bool

/-- The top-level `try`/`except (CommandExecutionError,
SaltInvocationError)` wrapper shared by the public state functions: a
caught exception turns into `result: False` with the message as comment on
the `ret` built so far; other exceptions propagate. -/
def runStateFn (name : String) (body : StComp) :
    Except PyErr StateRet × List SAction :=
  match body ⟨initRet name, []⟩ with
  | (.ok r, s) => (.ok r, s.acts)
  | (.error e, s) =>
    if e.catchable then
      (.ok { s.ret with result := some false, comment := e.msg }, s.acts)
    else (.error e, s.acts)

/-- Running a state function called directly from another state function
(`dead(...)`/`removed(...)` inside `installed`): it builds its own fresh
`ret`, its catchable errors are handled by its own wrapper, and its return
value is discarded by the caller; the action trace accumulates. -/
def runNested (name : String) (body : StComp) : StComp := fun s =>
  match body ⟨initRet name, s.acts⟩ with
  | (.ok _, s2) => (.ok s.ret, ⟨s.ret, s2.acts⟩)
  | (.error e, s2) =>
    if e.catchable then (.ok s.ret, ⟨s.ret, s2.acts⟩)
    else (.error e, ⟨s.ret, s2.acts⟩)

/-- The `ret` mutation of the timeout branch of the `dead` polling loop
(lines 594-596): result False, the still-running comment, and the changes
reset to empty. -/
def timeoutRet (r : StateRet) : StateRet :=
  { r with
    result := some false
    comment := "Tried to stop the service, but it is still running."
    changes := [] }

/-- The polling loop of the `dead` state (lines 583-598): while
`compose.is_dead` is false, fail once `time.time() - start_time` exceeds
the timeout, else sleep 0.25 s and re-poll.  The clock is idealized: the
k-th elapsed reading equals k * 0.25 seconds (one sleep per failed
poll). -/
def deadLoop (env : StateEnv) (timeout : ℚ) (k : Nat) : StComp := fun s =>
  match env.isDeadAt k with
  | .error e => (.error e, s)
  | .ok true => (.ok s.ret, s)
  | .ok false =>
    if (k : ℚ) / 4 > timeout then
      (.ok (timeoutRet s.ret), { s with ret := timeoutRet s.ret })
    else deadLoop env timeout (k + 1) s
termination_by (Int.ceil (4 * timeout)).toNat + 1 - k
decreasing_by
  rename_i hgt
  have hk : (k : ℚ) ≤ 4 * timeout := by
    have := not_lt.mp hgt
    linarith [this]
  have hceil : (k : ℤ) ≤ Int.ceil (4 * timeout) := by
    have h2 : ((k : ℤ) : ℚ) ≤ ((Int.ceil (4 * timeout) : ℤ) : ℚ) :=
      le_trans (by exact_mod_cast hk) (Int.le_ceil _)
    exact_mod_cast h2
  omega

/-- Body of the `dead` state (`_states/compose.py` lines 478-604) inside
its try block: find the compose file, require installed units and a
running service, honor test mode, stop, then poll `is_dead` until the
timeout (default 10 s). -/
def deadBody (env : StateEnv) (name : String) (timeout : ℚ) : StComp :=
  fun s =>
  match env.findComposeFile with
  | .error e => (.error e, s)
  | .ok none =>
    let r := { s.ret with comment := "Could not find compose file for composition " ++
      name ++ ". Assuming it has been removed." }
    (.ok r, { s with ret := r })
  | .ok (some _) =>
  match env.listInstalledPre with
  | .error e => (.error e, s)
  | .ok false =>
    let r := { s.ret with comment := "Could not find any installed units for composition " ++
      name ++ "." }
    (.ok r, { s with ret := r })
  | .ok true =>
  match env.isRunningPre with
  | .error e => (.error e, s)
  | .ok false =>
    let r := { s.ret with comment := "Service for " ++ name ++ " is already dead." }
    (.ok r, { s with ret := r })
  | .ok true =>
  if env.test then
    let r : StateRet :=
      { s.ret with
        result := none
        comment := "Service for " ++ name ++ " is set to be stopped."
        changes := dictSet s.ret.changes "stopped" (.str name) }
    (.ok r, { s with ret := r })
  else
  match env.stopRes with
  | .error e => (.error e, { s with acts := s.acts ++ [.stopAct] })
  | .ok false =>
    (.error (.execution ("Something went wrong while trying to stop service for " ++
      name ++ ". This should not happen.")),
     { s with acts := s.acts ++ [.stopAct] })
  | .ok true =>
    let r : StateRet :=
      { s.ret with
        comment := "Service for " ++ name ++ " has been stopped."
        changes := dictSet s.ret.changes "stopped" (.str name) }
    deadLoop env timeout 0 { ret := r, acts := s.acts ++ [.stopAct] }

/-- The public `dead` state: `deadBody` under the exception wrapper. -/
def deadState (env : StateEnv) (name : String) (timeout : ℚ) :
    Except PyErr StateRet × List SAction :=
  runStateFn name (deadBody env name timeout)

/-- Body of the `removed` state (lines 357-475) inside its try block. -/
def removedBody (env : StateEnv) (name : String) (volumes : Bool) : StComp :=
  fun s =>
  match env.findComposeFile with
  | .error e => (.error e, s)
  | .ok none =>
    let r := { s.ret with comment := "Could not find compose file for composition " ++
      name ++ ". Assuming it has been removed." }
    (.ok r, { s with ret := r })
  | .ok (some _) =>
  match env.listInstalledPre with
  | .error e => (.error e, s)
  | .ok false =>
    let r := { s.ret with comment := "Composition " ++ name ++ " is already absent." }
    (.ok r, { s with ret := r })
  | .ok true =>
  if env.test then
    let r : StateRet :=
      { s.ret with
        result := none
        comment := ("Composition " ++ name ++ " is set to be removed.") ++
          (if volumes then " Volumes are set to be removed as well." else "")
        changes := dictSet s.ret.changes "removed" (.str name) }
    (.ok r, { s with ret := r })
  else
  match env.removeRes with
  | .error e => (.error e, { s with acts := s.acts ++ [.removeAct] })
  | .ok false =>
    (.error (.execution ("Something went wrong while trying to remove composition " ++
      name ++ ". This should not happen.")),
     { s with acts := s.acts ++ [.removeAct] })
  | .ok true =>
    let r : StateRet :=
      { s.ret with
        comment := ("Composition " ++ name ++ " has been removed.") ++
          (if volumes then " Volumes have been removed as well." else "")
        changes := dictSet s.ret.changes "removed" (.str name) }
    let s2 : StPack := { ret := r, acts := s.acts ++ [.removeAct] }
    match env.listInstalledPost with
    | .error e => (.error e, s2)
    | .ok true =>
      let r2 : StateRet :=
        { r with
          result := some false
          comment := "Tried to remove the composition, but some units are still installed."
          changes := [] }
      (.ok r2, { s2 with ret := r2 })
    | .ok false => (.ok r, s2)

/-- The public `removed` state. -/
def removedState (env : StateEnv) (name : String) (volumes : Bool) :
    Except PyErr StateRet × List SAction :=
  runStateFn name (removedBody env name volumes)

/-- The wanted-units comparison loop of `installed` (lines 223-233): a
unit is outdated when its file is missing or its contents differ from the
generated definitions (breaking at the first difference). -/
def unitsChangedLoop (env : StateEnv) (sdir : String) :
    List (String × String) → StPack → Except PyErr Bool × StPack
  | [], s => (.ok false, s)
  | (unitName, unitDefs) :: rest, s =>
    let unitFile := sdir ++ "/" ++ unitName ++ ".service"
    if !env.fileExists unitFile then (.ok true, s)
    else
      match env.fileRead unitFile with
      | .error e => (.error e, s)
      | .ok contents =>
        if contents ≠ unitDefs then (.ok true, s)
        else unitsChangedLoop env sdir rest s

/-- The final missing-units check of `installed` (lines 335-348): a
remaining missing component fails the state (the changes recorded are
kept). -/
def installedFinalCheck (env : StateEnv) : StComp := fun s =>
  match env.listMissingPost with
  | .error e => (.error e, s)
  | .ok true =>
    let r : StateRet :=
      { s.ret with
        result := some false
        comment := "Tried to install the composition, but there are still some missing components." }
    (.ok r, { s with ret := r })
  | .ok false => (.ok s.ret, s)

/-- Continuation of `installed` from the test-mode check on (lines
244-348).  `has_changes` and `units_changed` are locals assigned only on
the not-force_recreate path; reading them unassigned is Python's
UnboundLocalError, which no handler catches. -/
def installedTail (env : StateEnv) (name : String) (isInstalled : Bool)
    (hcLoc ucLoc : Option Bool) : StComp := fun s =>
  if env.test then
    let verb := if !isInstalled then "installed" else "updated"
    let r : StateRet :=
      { s.ret with
        result := none
        comment := "Composition " ++ name ++ " is set to be " ++ verb ++ "."
        changes := dictSet s.ret.changes verb (.str name) }
    (.ok r, { s with ret := r })
  else
  match hcLoc with
  | none =>
    (.error (.other "UnboundLocalError: local variable 'has_changes' referenced before assignment"), s)
  | some hc =>
  let step1 : Except PyErr Unit × StPack :=
    if hc && isInstalled then
      match runNested name (deadBody env name 10) s with
      | (.error e, s2) => (.error e, s2)
      | (.ok _, s2) =>
        match runNested name (removedBody env name false) s2 with
        | (.error e, s3) => (.error e, s3)
        | (.ok _, s3) => (.ok (), s3)
    else (.ok (), s)
  match step1 with
  | (.error e, s2) => (.error e, s2)
  | (.ok (), s2) =>
  match ucLoc with
  | none =>
    (.error (.other "UnboundLocalError: local variable 'units_changed' referenced before assignment"), s2)
  | some uc =>
  if uc && !hc then
    match env.installUnitsApply with
    | .error e => (.error e, { s2 with acts := s2.acts ++ [.installUnitsAct] })
    | .ok _ =>
      let r : StateRet :=
        { s2.ret with
          comment := "Unit files for composition " ++ name ++ " have been updated."
          changes := dictSet s2.ret.changes "updated" (.str name) }
      installedFinalCheck env { ret := r, acts := s2.acts ++ [.installUnitsAct] }
  else
    match env.installRes with
    | .error e => (.error e, { s2 with acts := s2.acts ++ [.installAct] })
    | .ok false =>
      (.error (.execution ("Something went wrong while trying to " ++
        (if !isInstalled then "install" else "update") ++ " composition " ++
        name ++ ". This should not happen.")),
       { s2 with acts := s2.acts ++ [.installAct] })
    | .ok true =>
      let verb := if !isInstalled then "installed" else "updated"
      let r : StateRet :=
        { s2.ret with
          comment := "Composition " ++ name ++ " has been " ++ verb ++ "."
          changes := dictSet s2.ret.changes verb (.str name) }
      installedFinalCheck env { ret := r, acts := s2.acts ++ [.installAct] }

/-- Body of the `installed` state (lines 178-354) inside its try block.
With `force_recreate` the idempotence checks are skipped and
`is_installed` is just set to True (the "cheap out" of line 241),
leaving `has_changes` and `units_changed` unassigned. -/
def installedBody (env : StateEnv) (name : String)
    (update forceRecreate : Bool) : StComp := fun s =>
  if !forceRecreate then
    match env.listInstalledPre with
    | .error e => (.error e, s)
    | .ok isInstalled =>
      if isInstalled && !update then
        let r := { s.ret with comment := "Composition " ++ name ++ " is already installed." }
        (.ok r, { s with ret := r })
      else
        match env.hasChangesRes with
        | .error e => (.error e, s)
        | .ok hc =>
        match env.installUnitsGen with
        | .error e => (.error e, s)
        | .ok wanted =>
        match env.serviceDirRes with
        | .error e => (.error e, s)
        | .ok sdir =>
        match unitsChangedLoop env sdir wanted s with
        | (.error e, s2) => (.error e, s2)
        | (.ok uc, s2) =>
          if isInstalled && !hc && !uc then
            let r := { s2.ret with comment := "Composition " ++ name ++
              " is already installed and in sync with the definitions." }
            (.ok r, { s2 with ret := r })
          else installedTail env name isInstalled (some hc) (some uc) s2
  else installedTail env name true none none s

/-- The public `installed` state. -/
def installedState (env : StateEnv) (name : String)
    (update forceRecreate : Bool) : Except PyErr StateRet × List SAction :=
  runStateFn name (installedBody env name update forceRecreate)

/-! ### Claim-side predicates and concrete environments -/

/-- The spec-side drift condition for one container: its config-hash label
differs from the new digest, and, under `skip_removed`, its service still
appears in the definitions. -/
def driftCounted (newHash : String) (skipRemoved : Bool) (defs : ComposeDefs)
    (v : CntView) : Bool :=
  match dictGet v.labels "io.podman.compose.config-hash" with
  | some h => decide (h ≠ newHash) && (!skipRemoved || svcInDefs v defs)
  | none => false

/-- The entry `has_changes` records for a drifted container: the
`PODMAN_SYSTEMD_UNIT` label, falling back to the id. -/
def changedEntry (v : CntView) : Option String :=
  (dictGet v.labels "PODMAN_SYSTEMD_UNIT").or v.idOpt

/-- Equality on `Except` results is decidable componentwise (used to
evaluate the embedding on concrete inputs). -/
instance {ε α : Type} [DecidableEq ε] [DecidableEq α] :
    DecidableEq (Except ε α) := fun x y =>
  match x, y with
  | .error e, .error f => decidable_of_iff (e = f) (by simp)
  | .ok a, .ok b => decidable_of_iff (a = b) (by simp)
  | .error _, .ok _ => isFalse (by simp)
  | .ok _, .error _ => isFalse (by simp)

/-- Whether the config-hash label a container view carries is present and
nonempty (the loop raises otherwise). -/
def goodHashLabel (v : CntView) : Bool :=
  match dictGet v.labels "io.podman.compose.config-hash" with
  | some h => decide (h ≠ "")
  | none => false

/-- `shlex.split` restricted to inputs without quotes, escapes or tabs:
split on blanks.  Used only to instantiate the `shlexSplit` oracle on
concrete unit files of that shape. -/
def shlexSplitSimple (s : String) : List String :=
  ((splitOnChar ' ' s.toList).map (fun l => String.mk l)).filter (fun t => t ≠ "")

/-- A base environment: one service "web", compose file at
`/opt/containers/proj/docker-compose.yml`, no unit files installed, no
containers running. -/
def baseEnv : ModuleEnv where
  homeOf := fun _ => .ok "/home/u"
  readFile := fun _ => none
  dirExists := fun _ => true
  shlexSplit := shlexSplitSimple
  psByName := fun _ => .ok []
  psByUnit := fun _ => .ok []
  psProject := fun _ => .ok []
  psStopped := .ok []
  ppsRes := .ok []
  systemctlActive := fun _ => .ok false
  composeHash := "newhash"
  composeFileRes := .ok (some "/opt/containers/proj/docker-compose.yml")
  projectNameOf := fun _ => .ok "proj"
  findUserRes := .ok none
  defsOpt := some ⟨[("web", {})]⟩

/-- A running container of project "proj" whose config-hash label is
outdated. -/
def driftView : CntView where
  idOpt := some "abc123def456789"
  labels := [("io.podman.compose.config-hash", "oldhash"),
             ("com.docker.compose.service", "web"),
             ("PODMAN_SYSTEMD_UNIT", "proj_web_1.service")]

/-- Environment with the expected unit files installed and one running
container whose config-hash label is outdated. -/
def driftEnv : ModuleEnv :=
  { baseEnv with
    readFile := fun p =>
      if p = "/etc/systemd/system/proj_web_1.service" ∨
          p = "/etc/systemd/system/pod_proj.service" then
        some "unit file"
      else none
    psProject := fun _ =>
      .ok [{ id := "abc123def456789", labels := driftView.labels }] }

/-- A unit file whose `podman run` line carries exactly one `--label`
option (`inspect_unit` then iterates the single string's characters). -/
def oneLabelUnitFile : String :=
  "[Service]\nExecStart=/usr/bin/podman run --label a=b docker.io/img\n"

/-- A unit file whose `podman run` line carries two `--label` options. -/
def twoLabelUnitFile : String :=
  "[Service]\nExecStart=/usr/bin/podman run --label a=b --label c=d docker.io/img\n"

/-- Environment whose unit file for `c.service` is `oneLabelUnitFile`. -/
def oneLabelEnv : ModuleEnv :=
  { baseEnv with
    readFile := fun p =>
      if p = "/etc/systemd/system/c.service" then some oneLabelUnitFile
      else none }

/-- Environment whose unit file for `c.service` is `twoLabelUnitFile`. -/
def twoLabelEnv : ModuleEnv :=
  { baseEnv with
    readFile := fun p =>
      if p = "/etc/systemd/system/c.service" then some twoLabelUnitFile
      else none }

/-- Environment with installed unit files whose units systemctl reports
active. -/
def runningEnv : ModuleEnv :=
  { driftEnv with systemctlActive := fun _ => .ok true }

/-- A state environment describing a composition that is installed and in
sync. -/
def syncedStateEnv : StateEnv where
  test := false
  findComposeFile := .ok (some "/opt/containers/proj/docker-compose.yml")
  listInstalledPre := .ok true
  listInstalledPost := .ok false
  hasChangesRes := .ok false
  installUnitsGen := .ok [("proj_web_1", "unit contents")]
  serviceDirRes := .ok "/etc/systemd/system"
  fileExists := fun p => p = "/etc/systemd/system/proj_web_1.service"
  fileRead := fun p =>
    if p = "/etc/systemd/system/proj_web_1.service" then .ok "unit contents"
    else .error (.execution "file not found")
  installUnitsApply := .ok true
  installRes := .ok true
  listMissingPost := .ok false
  removeRes := .ok true
  isRunningPre := .ok true
  stopRes := .ok true
  isDeadAt := fun _ => .ok false

/-- A state environment for the `dead` state: installed, running, the stop
succeeds, and the services report dead from the second re-poll on. -/
def stoppingStateEnv : StateEnv :=
  { syncedStateEnv with isDeadAt := fun k => .ok (decide (2 ≤ k)) }

/-- A state environment for the `dead` state where the services never
die. -/
def stuckStateEnv : StateEnv :=
  { syncedStateEnv with isDeadAt := fun _ => .ok false }

/-! ## Theorems -/

/-- C9: `_canonical_unit_name` returns a name ending in one of the valid
unit-type suffixes unchanged and appends ".service" otherwise; it is
idempotent and every output ends with a valid suffix. -/
theorem C9_canonical_unit_name (name : PyStr) :
    (VALID_UNIT_TYPES.any (fun suffix => suffix.isSuffixOf name) = true →
      canonicalUnitName name = name) ∧
    (VALID_UNIT_TYPES.any (fun suffix => suffix.isSuffixOf name) = false →
      canonicalUnitName name = name ++ pys ".service") ∧
    canonicalUnitName (canonicalUnitName name) = canonicalUnitName name ∧
    ∃ suffix ∈ VALID_UNIT_TYPES,
      suffix.isSuffixOf (canonicalUnitName name) = true := by
  have hserv : (pys "service").isSuffixOf (name ++ pys ".service") = true := by
    simp [List.isSuffixOf, pys]
  have hmem : pys "service" ∈ VALID_UNIT_TYPES := by simp [VALID_UNIT_TYPES]
  have hany : VALID_UNIT_TYPES.any
      (fun suffix => suffix.isSuffixOf (name ++ pys ".service")) = true :=
    List.any_eq_true.mpr ⟨pys "service", hmem, hserv⟩
  refine ⟨fun h => by simp [canonicalUnitName, h],
    fun h => by simp [canonicalUnitName, h], ?_, ?_⟩
  · by_cases h : VALID_UNIT_TYPES.any (fun suffix => suffix.isSuffixOf name) = true
    · simp [canonicalUnitName, h]
    · have h2 : canonicalUnitName name = name ++ pys ".service" := by
        rw [canonicalUnitName, if_neg h]
      rw [h2, canonicalUnitName, if_pos hany]
  · by_cases h : VALID_UNIT_TYPES.any (fun suffix => suffix.isSuffixOf name) = true
    · obtain ⟨suffix, hs, hsfx⟩ := List.any_eq_true.mp h
      refine ⟨suffix, hs, ?_⟩
      simpa [canonicalUnitName, h] using hsfx
    · refine ⟨pys "service", hmem, ?_⟩
      rw [canonicalUnitName, if_neg h]
      exact hserv

/-- C9 witness: a name without a valid suffix gets ".service" appended,
and the function is idempotent there. -/
theorem C9_witness :
    canonicalUnitName (pys "gitea") = pys "gitea" ++ pys ".service" ∧
    canonicalUnitName (canonicalUnitName (pys "gitea")) =
      canonicalUnitName (pys "gitea") :=
  ⟨(C9_canonical_unit_name (pys "gitea")).2.1 (by decide),
   (C9_canonical_unit_name (pys "gitea")).2.2.1⟩

/-- C8: `_run` builds the command line as
[bin_path] + parsed(args) + [command] + parsed(cmd_args), appends
["--"] + params only when params is given, appends ("format", "json") to
cmd_args first when json is set, and `_parse_args` with include_equal maps
tuples to "--k=v" and atoms to "--a", preserving order and length. -/
theorem C8_run_cmd_line (binPath command : String) (args cmdArgs : List CliArg)
    (params : Option (List String)) (json : Bool) :
    runCmdLine binPath command args cmdArgs params json =
      [binPath] ++ parseCliArgs args true ++ [command] ++
        parseCliArgs (if json then cmdArgs ++ [CliArg.pair "format" "json"]
          else cmdArgs) true ++
        (match params with | some ps => ["--"] ++ ps | none => []) ∧
    parseCliArgs args true = args.map (formatCliArg true) ∧
    (parseCliArgs args true).length = args.length ∧
    (∀ k v : String, formatCliArg true (CliArg.pair k v) = "--" ++ k ++ "=" ++ v) ∧
    (∀ a : String, formatCliArg true (CliArg.flag a) = "--" ++ a) := by
  refine ⟨?_, rfl, by simp [parseCliArgs], fun k v => rfl, fun a => rfl⟩
  cases params <;> simp [runCmdLine]

/-- C3 (code-bug evidence): with `status_only=False` and a missing
container unit file, `has_changes` returns the bare boolean `True` instead
of the documented `{"changed": [...], "missing": {...}}` map, because line
964 parses as `(status_only and missing["pods"]) or missing["containers"]`. -/
theorem C3_has_changes_bare_bool :
    hasChangesM baseEnv false false none none none none none =
      .ok (.bool true) := rfl

/-- Helper: one pass of the `has_changes` loop on a container whose
config-hash label is present and nonempty appends exactly the drifted
entry. -/
theorem hasChangesLoop_step (nh : String) (sr : Bool) (defs : ComposeDefs)
    (acc : List (Option String)) (v : CntView)
    (hgood : goodHashLabel v = true) :
    hasChangesLoop nh sr defs acc v =
      .ok (if driftCounted nh sr defs v then acc ++ [changedEntry v] else acc) := by
  unfold hasChangesLoop driftCounted changedEntry
  unfold goodHashLabel at hgood
  cases hh : dictGet v.labels "io.podman.compose.config-hash" with
  | none => rw [hh] at hgood; exact absurd hgood (by simp)
  | some h =>
    rw [hh] at hgood
    have hne : ¬ h = "" := by simpa using hgood
    by_cases hnh : h = nh
    · subst hnh
      simp [hne, pure, Except.pure]
    · by_cases hcnt : (!sr || svcInDefs v defs) = true
      · simp [hne, hnh, hcnt, pure, Except.pure]
      · simp only [Bool.or_eq_true, Bool.not_eq_true'] at hcnt
        push_neg at hcnt
        simp [hne, hnh, hcnt.1, hcnt.2, pure, Except.pure]

/-- Helper: the full `has_changes` loop collects the drifted entries of
all containers when every container carries a usable config-hash label. -/
theorem hasChangesLoop_fold (nh : String) (sr : Bool) (defs : ComposeDefs) :
    ∀ (views : List CntView) (acc : List (Option String)),
    (∀ v ∈ views, goodHashLabel v = true) →
    views.foldlM (hasChangesLoop nh sr defs) acc =
      .ok (acc ++ (views.filter (driftCounted nh sr defs)).map changedEntry) := by
  intro views
  induction views with
  | nil => intro acc _; simp [List.foldlM, pure, Except.pure]
  | cons v vs ih =>
    intro acc hgood
    have hv := hgood v (by simp)
    have hvs : ∀ w ∈ vs, goodHashLabel w = true := fun w hw => hgood w (by simp [hw])
    have hbind : ∀ (x : List (Option String))
        (f : List (Option String) → Except PyErr (List (Option String))),
        ((Except.ok x : Except PyErr (List (Option String))) >>= f) = f x :=
      fun _ _ => rfl
    simp only [List.foldlM]
    rw [hasChangesLoop_step nh sr defs acc v hv, hbind]
    by_cases hc : driftCounted nh sr defs v = true
    · rw [if_pos hc, ih (acc ++ [changedEntry v]) hvs]
      simp [List.filter_cons, hc]
    · rw [if_neg hc, ih acc hvs]
      have hc2 : driftCounted nh sr defs v = false := by simpa using hc
      simp [List.filter_cons, hc2]

/-- C1: for a composition whose expected units are all installed and whose
containers (from `podman ps`, or parsed from the unit files) each carry a
usable `io.podman.compose.config-hash` label, `has_changes` with
`status_only=True` returns True exactly when some expected unit file is
missing or some container's config-hash label differs from the digest
computed by `_get_compose_hash` (containers whose service left the
definitions are ignored under `skip_removed`). -/
theorem C1_has_changes_drift
    (env : ModuleEnv) (skipRemoved : Bool)
    (projectName cntPre podPre sep user : Option String)
    (comp : String) (hcomp : findComposeFileStrict env = .ok comp)
    (projName : String)
    (hproj : resolveProjectName env comp projectName = .ok projName)
    (ruser : Option String) (huser : resolveUser env user = .ok ruser)
    (missing : UnitsMap)
    (hmiss : listMissingUnitsM env (some projName)
      (some (resolveOr cntPre env.defaultCntPre))
      (some (resolveOr podPre env.defaultPodPre)) none sep ruser = .ok missing)
    (hins : missing.containers = [] ∧ missing.pods = [])
    (views : List CntView)
    (hviews : hasChangesContainersM env projName
      (resolveOr cntPre env.defaultCntPre)
      (resolveOr podPre env.defaultPodPre) sep ruser = .ok views)
    (hgood : ∀ v ∈ views, goodHashLabel v = true)
    (defs : ComposeDefs) (hdefs : env.defsOpt = some defs) :
    ∃ b, hasChangesM env true skipRemoved projectName cntPre podPre sep user =
        .ok (.bool b) ∧
      (b = true ↔ (missing.containers ≠ [] ∨ missing.pods ≠ [] ∨
        ∃ v ∈ views, driftCounted env.composeHash skipRemoved defs v = true)) := by
  have hm0 : missing = ⟨[], []⟩ := by
    obtain ⟨h1, h2⟩ := hins
    cases missing
    simp_all
  subst hm0
  refine ⟨!((views.filter
      (driftCounted env.composeHash skipRemoved defs)).map changedEntry).isEmpty,
    ?_, ?_⟩
  · unfold hasChangesM
    simp only [hcomp, hproj, huser, hmiss, hviews, bind, Except.bind,
      List.isEmpty_nil, Bool.not_true, Bool.and_false, Bool.or_self,
      Bool.false_or, Bool.or_false, if_false]
    by_cases hv : views = []
    · subst hv
      simp [pure, Except.pure]
    · have hve : views.isEmpty = false := by
        cases views with
        | nil => exact absurd rfl hv
        | cons a l => rfl
      simp only [hve, if_false, Bool.false_eq_true, getComposeHashM, hdefs,
        hasChangesLoop_fold env.composeHash skipRemoved defs views [] hgood,
        Except.bind, List.nil_append, pure, Except.pure]
      simp
  · have hfilter : ∀ p : CntView → Bool,
        ((!((views.filter p).map changedEntry).isEmpty) = true ↔
          ∃ v ∈ views, p v = true) := by
      intro p
      constructor
      · intro hb
        by_contra hno
        push_neg at hno
        have hnil : views.filter p = [] := by
          apply List.filter_eq_nil_iff.mpr
          intro a ha
          simp [hno a ha]
        simp [hnil] at hb
      · rintro ⟨v, hvmem, hvc⟩
        have hmem : v ∈ views.filter p := List.mem_filter.mpr ⟨hvmem, hvc⟩
        cases hfe : views.filter p with
        | nil => rw [hfe] at hmem; simp at hmem
        | cons a l => simp [hfe]
    simpa using hfilter (driftCounted env.composeHash skipRemoved defs)

/-- C1 witness: in `driftEnv` (units installed, one container whose
config-hash label reads "oldhash" against the digest "newhash")
`has_changes` with `status_only=True` reports True. -/
theorem C1_witness :
    hasChangesM driftEnv true false none none none none none =
      .ok (.bool true) := by
  obtain ⟨b, heq, hiff⟩ := C1_has_changes_drift driftEnv false none none none
    none none "/opt/containers/proj/docker-compose.yml" rfl "proj" rfl none rfl
    ⟨[], []⟩ rfl ⟨rfl, rfl⟩ [driftView] rfl (by decide) ⟨[("web", {})]⟩ rfl
  have hb : b = true :=
    hiff.mpr (Or.inr (Or.inr ⟨driftView, by simp, by decide⟩))
  rw [heq, hb]

/-- Helper: looking up the key just set by a dict assignment. -/
theorem dictGet_set_self {α : Type} (d : List (String × α)) (k : String)
    (v : α) : dictGet (dictSet d k v) k = some v := by
  have hmap : ∀ d : List (String × α),
      (d.map (fun p => if p.1 = k then (k, v) else p)).find?
        (fun p => p.1 = k) =
        if d.any (fun p => p.1 = k) then some (k, v) else none := by
    intro d
    induction d with
    | nil => simp
    | cons p rest ih =>
      by_cases hp : p.1 = k
      · simp [List.find?, hp]
      · have hif : (if p.1 = k then (k, v) else p) = p := if_neg hp
        have hd : decide (p.1 = k) = false := by simp [hp]
        simp only [List.map_cons, List.find?, List.any_cons, hif, hd]
        rw [Bool.false_or, ih]
  unfold dictSet dictGet
  by_cases h : d.any (fun p => p.1 = k) = true
  · rw [if_pos h, hmap, if_pos h]
    rfl
  · rw [if_neg h]
    have hnone : d.find? (fun p => p.1 = k) = none := by
      apply List.find?_eq_none.mpr
      intro x hx
      intro hxk
      apply h
      exact List.any_eq_true.mpr ⟨x, hx, hxk⟩
    rw [List.find?_append, hnone]
    simp [List.find?]

/-- C7 counterexample: a unit file whose `podman run` line carries exactly
one `--label KEY=VALUE` option makes `inspect_unit` iterate the single
string's characters and raise ValueError instead of returning the
podman-ps-like map the claim promises for every matched run line. -/
theorem C7_counterexample :
    execCapture (pys "ExecStart=") (pys "podman run")
      (linesOf oneLabelUnitFile) =
        some (pys " --label a=b docker.io/img") ∧
    inspectUnitM oneLabelEnv "c" none false =
      .error (.other "ValueError: not enough values to unpack (expected 2, got 1)") :=
  ⟨by decide, by decide⟩

/-- C7 (amended): `inspect_unit` raises SaltInvocationError when the
canonical unit file is missing, raises CommandExecutionError when no
`podman start` / `podman pod create` / `podman run` pattern matches, and,
when a `podman run` line matches and its parsed arguments carry a
positional image and well-formed label and volume options, returns a
ps-like map whose Labels hold PODMAN_SYSTEMD_UNIT = the canonical unit
name. -/
theorem C7_inspect_unit_errors (env : ModuleEnv) (unit : String)
    (user : Option String) (sdir : String)
    (hsdir : serviceDirM env user = .ok sdir) :
    (env.readFile (sdir ++ "/" ++ canonicalUnitNameStr unit) = none →
      inspectUnitM env unit user false =
        .error (.invocation ("File '" ++ (sdir ++ "/" ++ canonicalUnitNameStr unit) ++
          "' does not exist."))) ∧
    (∀ contents,
      env.readFile (sdir ++ "/" ++ canonicalUnitNameStr unit) = some contents →
      execCapture (pys "ExecStart=") (pys "podman start") (linesOf contents) = none →
      podCapture (linesOf contents) = none →
      execCapture (pys "ExecStart=") (pys "podman run") (linesOf contents) = none →
      inspectUnitM env unit user false =
        .error (.execution "Failed parsing unit \x7bunit\x7d. Was it created by podman?")) ∧
    (∀ contents cap,
      env.readFile (sdir ++ "/" ++ canonicalUnitNameStr unit) = some contents →
      execCapture (pys "ExecStart=") (pys "podman start") (linesOf contents) = none →
      podCapture (linesOf contents) = none →
      execCapture (pys "ExecStart=") (pys "podman run") (linesOf contents) = some cap →
      ∀ img ls ms,
      (parseArguments (env.shlexSplit (String.mk cap))).params.head? = some img →
      labelsOfOpt (dictGet (parseArguments (env.shlexSplit (String.mk cap))).options
        "label") = .ok ls →
      mountsOfOpt (dictGet (parseArguments (env.shlexSplit (String.mk cap))).options
        "v") = .ok ms →
      ∃ u : PsUnit, inspectUnitM env unit user false = .ok (.psLike u) ∧
        dictGet u.labels "PODMAN_SYSTEMD_UNIT" =
          some (canonicalUnitNameStr unit)) := by
  refine ⟨?_, ?_, ?_⟩
  · intro hmiss
    unfold inspectUnitM
    simp only [hsdir, bind, Except.bind, hmiss, throw, throwThe,
      MonadExceptOf.throw]
  · intro contents hread hstart hpod hrun
    unfold inspectUnitM
    simp only [hsdir, bind, Except.bind, hread, hstart, hpod, hrun, throw,
      throwThe, MonadExceptOf.throw]
  · intro contents cap hread hstart hpod hrun img ls ms himg hls hms
    refine ⟨{ image := img,
              labels := dictSet ls "PODMAN_SYSTEMD_UNIT" (canonicalUnitNameStr unit),
              mounts := ms,
              networks := networksOfOpt
                (dictGet (parseArguments (env.shlexSplit (String.mk cap))).options
                  "net") }, ?_, dictGet_set_self ls _ _⟩
    unfold inspectUnitM
    simp only [hsdir, bind, Except.bind, hread, hstart, hpod, hrun, himg, hls,
      hms, pure, Except.pure, Bool.false_eq_true, false_and, if_false,
      Except.map]

/-- C7 witness: parsing the two-label unit file returns the ps-like map
with PODMAN_SYSTEMD_UNIT set to the canonical unit name "c.service". -/
theorem C7_witness :
    ∃ u : PsUnit, inspectUnitM twoLabelEnv "c" none false = .ok (.psLike u) ∧
      dictGet u.labels "PODMAN_SYSTEMD_UNIT" = some "c.service" := by
  obtain ⟨u, h1, h2⟩ :=
    (C7_inspect_unit_errors twoLabelEnv "c" none "/etc/systemd/system" rfl).2.2
      twoLabelUnitFile (pys " --label a=b --label c=d docker.io/img")
      (by decide) (by decide) (by decide) (by decide)
      "docker.io/img" [("a", "b"), ("c", "d")] []
      (by decide) (by decide) (by decide)
  exact ⟨u, h1, h2.trans (by decide)⟩

/-- C10: when `is_running` reports the composition's units running,
`remove` raises `CommandExecutionError` with an empty effect trace: no
`podman-compose down` and no unit-file deletion has happened. -/
theorem C10_remove_running (env : ModuleEnv) (volumes : Bool)
    (projectName cntPre podPre sep user : Option String)
    (comp : String) (hcomp : findComposeFileStrict env = .ok comp)
    (projName : String)
    (hproj : resolveProjectName env comp projectName = .ok projName)
    (ruser : Option String) (huser : resolveUser env user = .ok ruser)
    (hrun : isRunningM env (some projName) cntPre podPre sep ruser = .ok true) :
    removeM env volumes projectName cntPre podPre sep user =
      (.error (.execution ("Cannot remove composition " ++ comp ++
        " because the service(s) are still running.")), []) := by
  simp only [removeM, hcomp, hproj, huser, hrun]

/-- C10 witness: the concrete running composition. -/
theorem C10_witness :
    removeM runningEnv false none none none none none =
      (.error (.execution
        "Cannot remove composition /opt/containers/proj/docker-compose.yml because the service(s) are still running."),
       []) := by
  have h := C10_remove_running runningEnv false none none none none none
    "/opt/containers/proj/docker-compose.yml" rfl "proj" rfl none rfl (by decide)
  rw [h]
  rfl

/-- Helper: the wanted-units loop reports no change when every generated
unit file exists with identical contents. -/
theorem unitsChangedLoop_in_sync (env : StateEnv) (sdir : String) :
    ∀ l : List (String × String),
    (∀ p ∈ l, env.fileExists (sdir ++ "/" ++ p.1 ++ ".service") = true ∧
      env.fileRead (sdir ++ "/" ++ p.1 ++ ".service") = .ok p.2) →
    ∀ s, unitsChangedLoop env sdir l s = (.ok false, s) := by
  intro l
  induction l with
  | nil => intro _ s; rfl
  | cons p rest ih =>
    intro h s
    obtain ⟨he, hr⟩ := h p (by simp)
    unfold unitsChangedLoop
    simp only [he, hr, Bool.not_true, Bool.false_eq_true, if_false, ne_eq,
      not_true_eq_false, ite_false]
    exact ih (fun q hq => h q (by simp [hq])) s

/-- C4: an `installed` run with `update=True`, `force_recreate=False` on a
composition that is installed, whose `has_changes` reports no drift, and
whose generated unit files all exist with identical contents, performs no
mutating action and returns result True, empty changes, and the in-sync
comment. -/
theorem C4_installed_idempotent (env : StateEnv) (name : String)
    (hinst : env.listInstalledPre = .ok true)
    (hhc : env.hasChangesRes = .ok false)
    (wanted : List (String × String)) (hw : env.installUnitsGen = .ok wanted)
    (sdir : String) (hs : env.serviceDirRes = .ok sdir)
    (hfiles : ∀ p ∈ wanted,
      env.fileExists (sdir ++ "/" ++ p.1 ++ ".service") = true ∧
      env.fileRead (sdir ++ "/" ++ p.1 ++ ".service") = .ok p.2) :
    installedState env name true false =
      (.ok (⟨name, [], some true, "Composition " ++ name ++
        " is already installed and in sync with the definitions."⟩ : StateRet),
       []) := by
  unfold installedState runStateFn installedBody
  simp only [hinst, hhc, hw, hs, Bool.not_false, Bool.not_true, Bool.and_false,
    Bool.false_eq_true, if_false, Bool.and_true, Bool.true_and, if_true]
  rw [unitsChangedLoop_in_sync env sdir wanted hfiles]
  rfl

/-- C4 witness: the concrete in-sync composition. -/
theorem C4_witness :
    installedState syncedStateEnv "proj" true false =
      (.ok (⟨"proj", [], some true,
        "Composition proj is already installed and in sync with the definitions."⟩ :
          StateRet), []) := by
  have h := C4_installed_idempotent syncedStateEnv "proj" rfl rfl
    [("proj_web_1", "unit contents")] rfl "/etc/systemd/system" rfl (by decide)
  rw [h]
  rfl

/-- Helper: if the services never report dead, the polling loop of the
`dead` state ends in the timeout failure, with the changes reset. -/
theorem deadLoop_never (env : StateEnv) (timeout : ℚ)
    (hdead : ∀ j, env.isDeadAt j = .ok false) :
    ∀ fuel k s, (Int.ceil (4 * timeout)).toNat + 1 - k ≤ fuel →
    deadLoop env timeout k s =
      (.ok (timeoutRet s.ret), { s with ret := timeoutRet s.ret }) := by
  intro fuel
  induction fuel with
  | zero =>
    intro k s hk
    have hgt : (k : ℚ) / 4 > timeout := by
      have h1 : (Int.ceil (4 * timeout)).toNat + 1 ≤ k := by omega
      have h2 : (4 * timeout : ℚ) ≤ ((Int.ceil (4 * timeout)).toNat : ℚ) := by
        calc (4 * timeout : ℚ) ≤ ((Int.ceil (4 * timeout) : ℤ) : ℚ) :=
              Int.le_ceil _
          _ ≤ ((Int.ceil (4 * timeout)).toNat : ℚ) := by
              exact_mod_cast Int.self_le_toNat _
      have h3 : ((Int.ceil (4 * timeout)).toNat : ℚ) < (k : ℚ) := by
        exact_mod_cast h1
      rw [gt_iff_lt, lt_div_iff (by norm_num : (0:ℚ) < 4)]
      linarith
    rw [deadLoop]
    rw [hdead k]
    simp only [if_pos hgt]
  | succ n ih =>
    intro k s hk
    rw [deadLoop, hdead k]
    by_cases hgt : (k : ℚ) / 4 > timeout
    · simp only [if_pos hgt]
    · simp only [if_neg hgt]
      apply ih
      have hle : (k : ℚ) ≤ 4 * timeout := by
        rw [gt_iff_lt, lt_div_iff (by norm_num : (0:ℚ) < 4)] at hgt
        push_neg at hgt
        linarith
      have hceil : (k : ℤ) ≤ Int.ceil (4 * timeout) := by
        have : ((k : ℤ) : ℚ) ≤ ((Int.ceil (4 * timeout) : ℤ) : ℚ) :=
          le_trans (by exact_mod_cast hle) (Int.le_ceil _)
        exact_mod_cast this
      omega

/-- Helper: if the services first report dead at poll K, within the
timeout, the polling loop exits normally keeping the ret built so far. -/
theorem deadLoop_dies (env : StateEnv) (timeout : ℚ) (K : Nat)
    (hK : env.isDeadAt K = .ok true)
    (hbefore : ∀ j, j < K → env.isDeadAt j = .ok false)
    (hKt : (K : ℚ) / 4 ≤ timeout) :
    ∀ d k s, K = k + d → deadLoop env timeout k s = (.ok s.ret, s) := by
  intro d
  induction d with
  | zero =>
    intro k s hkd
    have : k = K := by omega
    subst this
    rw [deadLoop, hK]
  | succ n ih =>
    intro k s hkd
    have hklt : k < K := by omega
    rw [deadLoop, hbefore k hklt]
    have hkt : ¬ ((k : ℚ) / 4 > timeout) := by
      push_neg
      have hkK : (k : ℚ) ≤ (K : ℚ) := by exact_mod_cast Nat.le_of_lt hklt
      have h4 : (k : ℚ) / 4 ≤ (K : ℚ) / 4 := by linarith
      exact le_trans h4 hKt
    simp only [if_neg hkt]
    exact ih (k + 1) s (by omega)

/-- C5: for the `dead` state on an installed, running composition (test
mode off) whose stop call succeeds: if the services never report dead the
state returns result False with the still-running comment and the changes
reset to empty; if they first report dead at a poll within the timeout the
state returns result True with the stop recorded in changes.  One poll is
made per 0.25-second interval (the loop's idealized clock). -/
theorem C5_dead_retry (env : StateEnv) (name : String) (timeout : ℚ)
    (f : String) (hf : env.findComposeFile = .ok (some f))
    (hli : env.listInstalledPre = .ok true)
    (hrun : env.isRunningPre = .ok true)
    (htest : env.test = false)
    (hstop : env.stopRes = .ok true) :
    ((∀ j, env.isDeadAt j = .ok false) →
      deadState env name timeout =
        (.ok (⟨name, [], some false,
          "Tried to stop the service, but it is still running."⟩ : StateRet),
         [.stopAct])) ∧
    (∀ K : Nat, env.isDeadAt K = .ok true →
      (∀ j, j < K → env.isDeadAt j = .ok false) → (K : ℚ) / 4 ≤ timeout →
      deadState env name timeout =
        (.ok (⟨name, [("stopped", .str name)], some true,
          "Service for " ++ name ++ " has been stopped."⟩ : StateRet),
         [.stopAct])) := by
  constructor
  · intro hdead
    unfold deadState runStateFn deadBody
    simp only [hf, hli, hrun, htest, hstop, Bool.false_eq_true, if_false]
    rw [deadLoop_never env timeout hdead ((Int.ceil (4 * timeout)).toNat + 1) 0 _
      (by omega)]
    rfl
  · intro K hK hbefore hKt
    unfold deadState runStateFn deadBody
    simp only [hf, hli, hrun, htest, hstop, Bool.false_eq_true, if_false]
    rw [deadLoop_dies env timeout K hK hbefore hKt K 0 _ (by omega)]
    rfl

/-- C5 witness: with the default timeout 10, a composition that reports
dead from the second re-poll on succeeds with the stop recorded, and one
that never reports dead fails with empty changes. -/
theorem C5_witness :
    deadState stoppingStateEnv "proj" 10 =
      (.ok (⟨"proj", [("stopped", .str "proj")], some true,
        "Service for proj has been stopped."⟩ : StateRet), [.stopAct]) ∧
    deadState stuckStateEnv "proj" 10 =
      (.ok (⟨"proj", [], some false,
        "Tried to stop the service, but it is still running."⟩ : StateRet),
       [.stopAct]) := by
  constructor
  · refine ((C5_dead_retry stoppingStateEnv "proj" 10
      "/opt/containers/proj/docker-compose.yml" rfl rfl rfl rfl rfl).2 2
      rfl ?_ (by norm_num)).trans ?_
    · intro j hj
      interval_cases j <;> rfl
    · rfl
  · exact ((C5_dead_retry stuckStateEnv "proj" 10
      "/opt/containers/proj/docker-compose.yml" rfl rfl rfl rfl rfl).1
      (fun j => rfl)).trans rfl

/-- C6 (code-bug evidence): `installed` with `force_recreate=True` outside
test mode reads the local `has_changes` that the force_recreate path never
assigned; the resulting UnboundLocalError is not caught by the
`except (CommandExecutionError, SaltInvocationError)` handler and
propagates instead of a `{name, changes, result, comment}` dict. -/
theorem C6_installed_unbound_local (env : StateEnv) (name : String)
    (update : Bool) (htest : env.test = false) :
    installedState env name update true =
      (.error (.other
        "UnboundLocalError: local variable 'has_changes' referenced before assignment"),
       []) := by
  unfold installedState runStateFn installedBody installedTail
  simp only [htest, Bool.not_true, Bool.false_eq_true, if_false, PyErr.catchable]

/-- C6 witness: the failure at a concrete environment. -/
theorem C6_witness :
    installedState syncedStateEnv "proj" true true =
      (.error (.other
        "UnboundLocalError: local variable 'has_changes' referenced before assignment"),
       []) :=
  C6_installed_unbound_local syncedStateEnv "proj" true rfl

end SaltPodman
